import Mathlib

/-!
Shallow embedding of the schedule-derivation core of the transx2gtfs
repository (calendar.py, stop_times.py, bank_holidays.py, transxchange.py).
Python strings are modelled as Lean `String`s (operated on through their
`List Char` data), Python `datetime` values as whole seconds counted from
midnight of the reference date, and Python exceptions as `Option`/`Except`
failure values.
-/

namespace TransX

/-- Python's substring test `pat in s` on strings: `pat` occurs as a
contiguous substring of `s`. -/
def pyInStr (pat : List Char) : List Char → Bool
  | [] => pat.isPrefixOf ([] : List Char)
  | c :: t => pat.isPrefixOf (c :: t) || pyInStr pat t

/-- One step of Python's `s.split(sep)` for a non-empty `sep`; `fuel` bounds
the recursion (callers pass the length of the string, which suffices since
every step consumes at least one character). -/
def pySplitGo : Nat → List Char → List Char → List Char → List (List Char)
  | 0, _, acc, rest => [acc.reverse ++ rest]
  | fuel + 1, sep, acc, rest =>
    if sep ≠ [] && sep.isPrefixOf rest then
      acc.reverse :: pySplitGo fuel sep [] (rest.drop sep.length)
    else
      match rest with
      | [] => [acc.reverse]
      | c :: t => pySplitGo fuel sep (c :: acc) t

/-- Python's `s.split(sep)` for a non-empty separator. -/
def pySplit (sep s : List Char) : List (List Char) :=
  pySplitGo (s.length + 1) sep [] s

/-- Python's `int(s)` restricted to the decimal-digit strings this program
feeds it; `none` models the `ValueError` raised on anything else. -/
def pyInt (s : List Char) : Option Nat :=
  if s = [] then none
  else s.foldl (fun acc c =>
    match acc with
    | none => none
    | some n => if c.isDigit then some (n * 10 + (c.toNat - 48)) else none) (some 0)

/-- Decimal digits of a natural number, most significant first (`fuel`
bounds the recursion; callers pass `n + 1`). -/
def natStrGo : Nat → Nat → List Char → List Char
  | 0, _, acc => acc
  | fuel + 1, n, acc =>
    let d := Char.ofNat (48 + n % 10)
    if n < 10 then d :: acc else natStrGo fuel (n / 10) (d :: acc)

/-- Python's `str(n)` for a natural number. -/
def natStr (n : Nat) : String :=
  String.mk (natStrGo (n + 1) n [])

/-- Python's `s.zfill(2)`: left-pad with zeros to width 2. -/
def zfill2 (s : String) : String :=
  if 2 ≤ s.data.length then s
  else String.mk (List.replicate (2 - s.data.length) '0' ++ s.data)

/-- Two-digit rendering used for the `%M:%S` part of `strftime`. -/
def fmt2 (n : Nat) : String :=
  zfill2 (natStr n)

/-!
## transxchange.py: `parse_runtime_duration`

`parse_runtime_duration` (transxchange.py:328-349) strips everything up to
and including `"PT"`, then peels off the `H`, `M` and `S` components.  The
source multiplies the `S` component by `MINUTE_IN_SECONDS` (60), and that
behaviour is preserved here verbatim.  `none` models the `IndexError` /
`ValueError` exceptions escaping the Python function.
-/

/-- Embedding of `parse_runtime_duration` (transxchange.py:328-349). -/
def parse_runtime_duration (runtime : String) : Option Nat := do
  let HOUR_IN_SECONDS := 60 * 60
  let MINUTE_IN_SECONDS := 60
  let r0 ← (pySplit "PT".data runtime.data)[1]?
  let (tH, r1) ←
    if pyInStr "H".data r0 then do
      let split := pySplit "H".data r0
      let a ← split[0]?
      let b ← split[1]?
      let n ← pyInt a
      pure (n * HOUR_IN_SECONDS, b)
    else pure (0, r0)
  let (tM, r2) ←
    if pyInStr "M".data r1 then do
      let split := pySplit "M".data r1
      let a ← split[0]?
      let b ← split[1]?
      let n ← pyInt a
      pure (n * MINUTE_IN_SECONDS, b)
    else pure (0, r1)
  let tS ←
    if pyInStr "S".data r2 then do
      let split := pySplit "S".data r2
      let a ← split[0]?
      let n ← pyInt a
      -- The source also multiplies the seconds component by
      -- MINUTE_IN_SECONDS (transxchange.py:348).
      pure (n * MINUTE_IN_SECONDS)
    else pure 0
  pure (tH + tM + tS)

example : parse_runtime_duration "PT1H2M3S" = some 3900 := by decide
example : parse_runtime_duration "PT45M" = some 2700 := by decide
example : parse_runtime_duration "PT30S" = some 1800 := by decide
example : parse_runtime_duration "PT2H" = some 7200 := by decide
example : parse_runtime_duration "45M" = none := by decide

/-!
## calendar.py: `parse_day_range`

`parse_day_range` (calendar.py:40-96) classifies a weekday specifier string
into one of four shapes and produces one row with seven 0/1 day columns.
-/

/-- ASCII lowering of one character, as Python's `str.lower` acts on the
ASCII day-name strings this program handles. -/
def pyLowerChar (c : Char) : Char :=
  if 'A' ≤ c && c ≤ 'Z' then Char.ofNat (c.toNat + 32) else c

/-- Python's `s.lower()` on the ASCII strings this program handles. -/
def pyLower (s : List Char) : List Char :=
  s.map pyLowerChar

/-- Python's `str.isspace` members that `strip()` removes (ASCII set). -/
def pyIsSpace (c : Char) : Bool :=
  c = ' ' || c = '\t' || c = '\n' || c = '\r' || c = Char.ofNat 11 || c = Char.ofNat 12

/-- Python's `s.strip()`. -/
def pyStrip (s : List Char) : List Char :=
  ((s.dropWhile pyIsSpace).reverse.dropWhile pyIsSpace).reverse

/-- The `weekday_to_num` dictionary of calendar.py:43-45; `none` models the
`KeyError` raised on a missing key. -/
def weekday_to_num (d : List Char) : Option Nat :=
  if d = "monday".data then some 0
  else if d = "tuesday".data then some 1
  else if d = "wednesday".data then some 2
  else if d = "thursday".data then some 3
  else if d = "friday".data then some 4
  else if d = "saturday".data then some 5
  else if d = "sunday".data then some 6
  else none

/-- One row with the seven weekday flag columns built at calendar.py:81-92. -/
structure DayRow where
  monday : Nat
  tuesday : Nat
  wednesday : Nat
  thursday : Nat
  friday : Nat
  saturday : Nat
  sunday : Nat
  deriving DecidableEq, Repr

/-- The column-building loop of calendar.py:83-92: day `d` is 1 exactly when
`d` is among the active day numbers. -/
def mkDayRow (active : List Nat) : DayRow :=
  { monday := if 0 ∈ active then 1 else 0
    tuesday := if 1 ∈ active then 1 else 0
    wednesday := if 2 ∈ active then 1 else 0
    thursday := if 3 ∈ active then 1 else 0
    friday := if 4 ∈ active then 1 else 0
    saturday := if 5 ∈ active then 1 else 0
    sunday := if 6 ∈ active then 1 else 0 }

/-- Embedding of `parse_day_range` (calendar.py:40-96).  `none` models an
uncaught `KeyError`/`IndexError`.  `range(start_i, end_i + 1)` is
`List.range' start_i (end_i + 1 - start_i)`, empty when the end index
precedes the start index, exactly as in Python. -/
def parse_day_range (dayinfo : String) : Option DayRow :=
  if pyInStr "weekend".data (pyLower (pyStrip dayinfo.data)) then
    some (mkDayRow [5, 6])
  else if pyInStr "To".data dayinfo.data then do
    let day_range := pySplit "To".data dayinfo.data
    let a ← day_range[0]?
    let b ← day_range[1]?
    let start_i ← weekday_to_num (pyLower a)
    let end_i ← weekday_to_num (pyLower b)
    pure (mkDayRow (List.range' start_i (end_i + 1 - start_i)))
  else if pyInStr "|".data dayinfo.data then do
    let days := pySplit "|".data dayinfo.data
    let active ← days.mapM (fun d => weekday_to_num (pyLower d))
    pure (mkDayRow active)
  else do
    let n ← weekday_to_num (pyLower dayinfo.data)
    pure (mkDayRow [n])

/-- Capitalised day names, indexed Monday(0) … Sunday(6). -/
def dayName : Fin 7 → String
  | ⟨0, _⟩ => "Monday"
  | ⟨1, _⟩ => "Tuesday"
  | ⟨2, _⟩ => "Wednesday"
  | ⟨3, _⟩ => "Thursday"
  | ⟨4, _⟩ => "Friday"
  | ⟨5, _⟩ => "Saturday"
  | ⟨6, _⟩ => "Sunday"

example : parse_day_range "Weekend" = some ⟨0, 0, 0, 0, 0, 1, 1⟩ := by decide
example : parse_day_range "MondayToWednesday" = some ⟨1, 1, 1, 0, 0, 0, 0⟩ := by decide
example : parse_day_range "Monday|Friday" = some ⟨1, 0, 0, 0, 1, 0, 0⟩ := by decide
example : parse_day_range "Thursday" = some ⟨0, 0, 0, 1, 0, 0, 0⟩ := by decide
example : parse_day_range "FridayToMonday" = some ⟨0, 0, 0, 0, 0, 0, 0⟩ := by decide
example : parse_day_range "Holidays" = none := by decide

/-!
## stop_times.py

`Row` is one row of the `gtfs_info` DataFrame built by
`process_vehicle_journeys` (transxchange.py:230-279): a string, integer, or
nullable column for each key placed in the row dictionaries.
-/

/-- One row of the `gtfs_info` DataFrame (transxchange.py:230-279).  Columns
that the source leaves unset on some rows (`vehicle_type`, `weekdays`,
`non_operative_days`, `service_id`) are nullable. -/
structure Row where
  stop_id : String
  stop_sequence : Nat
  timepoint : Nat
  arrival_time : String
  departure_time : String
  route_link_ref : String
  agency_id : String
  trip_id : String
  route_id : String
  vehicle_journey_id : String
  service_ref : String
  direction_id : Nat
  line_name : String
  travel_mode : Nat
  trip_headsign : String
  vehicle_type : Option String
  start_date : String
  end_date : String
  weekdays : Option String
  non_operative_days : Option String
  service_id : Option String
  deriving DecidableEq, Repr

/-- Embedding of `get_direction` (stop_times.py:4-11); the `Except.error`
value models the raised `ValueError` with its message. -/
def get_direction (direction_id : String) : Except String Nat :=
  if direction_id = "inbound" then .ok 0
  else if direction_id = "outbound" then .ok 1
  else .error ("Cannot determine direction from " ++ direction_id)

/-- First-occurrence deduplication by a key, the semantics of pandas
`drop_duplicates` (`seen` accumulates the keys already kept). -/
def dedupByKeyGo {α κ : Type} [DecidableEq κ] (key : α → κ) : List κ → List α → List α
  | _, [] => []
  | seen, x :: t =>
    if key x ∈ seen then dedupByKeyGo key seen t
    else x :: dedupByKeyGo key (key x :: seen) t

/-- pandas `drop_duplicates` keeping the first occurrence of each key. -/
def dedupByKey {α κ : Type} [DecidableEq κ] (key : α → κ) (l : List α) : List α :=
  dedupByKeyGo key [] l

/-- The body of the group loop of `generate_service_id` (stop_times.py:54-68):
build the service_id from the weekday group's first row and write it onto
every row whose vehicle journey id belongs to the group. -/
def assignGroup (calendar_info : List Row) (acc : List Row) (weekday : String) :
    List Row :=
  let cgroup := calendar_info.filter (fun r => r.weekdays = some weekday)
  let vehicle_journey_ids := cgroup.map (fun r => r.vehicle_journey_id)
  match cgroup with
  | [] => acc
  | c0 :: _ =>
    let service_id :=
      c0.service_ref ++ "_" ++ c0.start_date ++ "_" ++ c0.end_date ++ "_" ++ weekday
    acc.map (fun r =>
      if r.vehicle_journey_id ∈ vehicle_journey_ids then
        { r with service_id := some service_id }
      else r)

/-- Embedding of `generate_service_id` (stop_times.py:41-69).  `calendar_info`
is one row per vehicle journey id (first occurrence); the rows are then
grouped by the `weekdays` column.  pandas `groupby` iterates the non-null
keys in sorted order, but `calendar_info` holds one row per vehicle journey
id so the per-group vehicle-journey-id sets are disjoint and the iteration
order cannot affect the final rows; first-occurrence key order is used
here. -/
def generate_service_id (stop_times : List Row) : List Row :=
  let stop_times := stop_times.map (fun r => { r with service_id := none })
  let calendar_info := dedupByKey (fun r => r.vehicle_journey_id) stop_times
  let keys := dedupByKey id (calendar_info.filterMap (fun r => r.weekdays))
  keys.foldl (assignGroup calendar_info) stop_times

/-- The six columns selected into the `stop_times` table
(stop_times.py:16). -/
structure StopTimesRow where
  trip_id : String
  arrival_time : String
  departure_time : String
  stop_id : String
  stop_sequence : Nat
  timepoint : Nat
  deriving DecidableEq, Repr

/-- The column selection `gtfs_info[stop_times_cols]` (stop_times.py:19). -/
def toStopTimesRow (r : Row) : StopTimesRow :=
  { trip_id := r.trip_id, arrival_time := r.arrival_time,
    departure_time := r.departure_time, stop_id := r.stop_id,
    stop_sequence := r.stop_sequence, timepoint := r.timepoint }

/-- Embedding of `get_stop_times` (stop_times.py:14-38): select the six
columns, drop duplicate rows (first kept), group by `trip_id` (pandas
iterates groups in sorted key order) and keep only groups with more than one
row. -/
def get_stop_times (gtfs_info : List Row) : List StopTimesRow :=
  let stop_times := dedupByKey id (gtfs_info.map toStopTimesRow)
  let keys :=
    List.insertionSort (fun a b : String => a < b)
      (dedupByKey id (stop_times.map (fun r => r.trip_id)))
  keys.flatMap (fun idx =>
    let group := stop_times.filter (fun r => r.trip_id = idx)
    if 1 < group.length then group else [])

/-!
## Input structures

These mirror the parts of the parsed TransXChange element tree that
`process_vehicle_journeys` reads.  An `Option` field models an element whose
absence makes the corresponding Python attribute access raise (caught by the
`try`/`except` of the accessor, where one exists).
-/

/-- One `JourneyPatternTimingLink` element: the fields read at
transxchange.py:188, 225, 228 and 13. -/
structure TimingLink where
  fromStopPointRef : String
  toStopPointRef : String
  routeLinkRef : String
  runTime : String
  deriving DecidableEq, Repr

/-- One `JourneyPatternSection` element: its `id` attribute and its ordered
timing links. -/
structure JPSection where
  id : String
  timingLinks : List TimingLink
  deriving DecidableEq, Repr

/-- One `VehicleJourney` element.  `regularDaysOfWeek` holds the child
element names of `OperatingProfile.RegularDayType.DaysOfWeek` when that path
exists, `bankHolidayNonOperation` likewise for
`OperatingProfile.BankHolidayOperation.DaysOfNonOperation`. -/
structure VehicleJourney where
  serviceRef : String
  journeyPatternRef : String
  vehicleJourneyCode : String
  departureTime : String
  regularDaysOfWeek : Option (List String)
  bankHolidayNonOperation : Option (List String)
  deriving DecidableEq, Repr

/-- One row of the `service_jp_info` DataFrame restricted to the columns
`process_vehicle_journeys` reads (transxchange.py:140-149). -/
structure JPInfoRow where
  journey_pattern_id : String
  jp_section_reference : String
  agency_id : String
  route_id : String
  direction_id : Nat
  line_name : String
  travel_mode : Nat
  trip_headsign : String
  vehicle_type : Option String
  start_date : String
  end_date : String
  deriving DecidableEq, Repr

/-- The single-name-or-pipe-join of a day element name list, shared by
`get_weekday_info` (calendar.py:24-38) and the exception accessors. -/
def joinDayNames (ds : List String) : String :=
  match ds with
  | [d] => d
  | _ => String.intercalate "|" ds

/-- Embedding of `get_weekday_info` (calendar.py:24-38): the pipe-joined
child names of the journey's `DaysOfWeek` element, or `none` when the
element path is absent. -/
def get_weekday_info (j : VehicleJourney) : Option String :=
  match j.regularDaysOfWeek with
  | none => none
  | some ds => some (joinDayNames ds)

/-- Embedding of `get_calendar_dates_exceptions` (calendar_dates.py:21-34):
the pipe-joined child names of the journey's `DaysOfNonOperation` element,
or `none` when the element path is absent. -/
def get_calendar_dates_exceptions (j : VehicleJourney) : Option String :=
  match j.bankHolidayNonOperation with
  | none => none
  | some ds => some (joinDayNames ds)

/-!
## transxchange.py: journey expansion

`datetime` values are modelled as whole seconds counted from midnight of
`current_date` (the reference date fixed at transxchange.py:106), so the
last second of the starting day, `datetime.combine(current_date,
time(23, 59, 59))`, is 86399.  All offsets this program feeds into
`timedelta` are whole seconds, for which the Python expression
`int(((current_dt - last_second_of_day) / 60 / 60).seconds)` equals the
floor `(current_dt - 86399) / 3600` whenever `current_dt` is at or after
that last second; every call in the program satisfies this because the
cursor only moves forward from the departure time.
-/

/-- The `.hour` attribute of a cursor value. -/
def dtHour (t : Nat) : Nat :=
  t / 3600 % 24

/-- `strftime("%M:%S")` of a cursor value. -/
def strftimeMMSS (t : Nat) : String :=
  fmt2 (t / 60 % 60) ++ ":" ++ fmt2 (t % 60)

/-- The arrival/departure string built at transxchange.py:219-222 and 25-28:
zero-filled display hour, colon, `%M:%S` of the cursor. -/
def formatStopTime (displayHour : Nat) (t : Nat) : String :=
  zfill2 (natStr displayHour) ++ ":" ++ strftimeMMSS t

/-- Embedding of `get_midnight_formatted_times` (transxchange.py:37-54):
when the naive arrival hour falls below the trip's starting hour the hours
are rewritten to `23 + surplus` where `surplus` is the whole-hour distance
from the last second of the starting day (86399) plus one. -/
def get_midnight_formatted_times (arrival_hour departure_hour hour : Nat)
    (current_dt departure_dt : Nat) : Nat × Nat :=
  if arrival_hour < hour then
    (23 + ((current_dt - 86399) / 3600 + 1),
     23 + ((departure_dt - 86399) / 3600 + 1))
  else
    (arrival_hour, departure_hour)

/-- The fields returned by `get_last_stop_time_info` (transxchange.py:30-33). -/
structure LastStopInfo where
  stop_id : String
  stop_sequence : Nat
  arrival_time : String
  departure_time : String
  deriving DecidableEq, Repr

/-- Embedding of `get_last_stop_time_info` (transxchange.py:9-34): the
terminal row for the final timing link's to-stop, one more run-time ahead of
the cursor. -/
def get_last_stop_time_info (link : TimingLink) (hour : Nat) (current_dt : Nat)
    (duration : Nat) (stop_num : Nat) (boarding_time : Nat) : LastStopInfo :=
  let stop_id := link.toStopPointRef
  let current_dt := current_dt + duration
  let departure_dt := current_dt + boarding_time
  let arrival_hour := dtHour current_dt
  let departure_hour := dtHour departure_dt
  let hours := get_midnight_formatted_times arrival_hour departure_hour hour
    current_dt departure_dt
  { stop_id := stop_id, stop_sequence := stop_num,
    arrival_time := formatStopTime hours.1 current_dt,
    departure_time := formatStopTime hours.2 departure_dt }

/-- Python's `"%s" % x` for a nullable string: `None` renders as `"None"`. -/
def optFmt (o : Option String) : String :=
  match o with
  | some s => s
  | none => "None"

/-- The trip id built at transxchange.py:171-173:
`"%s_%s_%s%s" % (section_id, weekdays, hour.zfill(2), minute.zfill(2))`. -/
def mkTripId (section_id : String) (weekdays : Option String) (hour minute : Nat) : String :=
  section_id ++ "_" ++ optFmt weekdays ++ "_" ++ zfill2 (natStr hour) ++ zfill2 (natStr minute)

/-- The per-journey values that are constant across a journey's sections and
are copied into every emitted row. -/
structure JourneyCtx where
  service_ref : String
  vehicle_journey_id : String
  weekdays : Option String
  non_operative_days : Option String
  agency_id : String
  route_id : String
  direction_id : Nat
  line_name : String
  travel_mode : Nat
  trip_headsign : String
  vehicle_type : Option String
  start_date : String
  end_date : String
  hour : Nat
  minute : Nat
  deriving Repr

/-- The mutable locals of the journey loop.  `current_dt` is `none` before
the first link of a journey (the Python `None` of transxchange.py:160);
`lastLink` carries the `link`, `duration` and `route_link_ref` variables
left over from the most recent link iteration, which Python function scoping
leaks across sections and journeys. -/
structure LoopState where
  current_dt : Option Nat
  stop_num : Nat
  lastLink : Option (TimingLink × Nat × String)
  deriving Repr

/-- The row dictionary built at transxchange.py:231-252 for a link's
from-stop. -/
def linkRow (ctx : JourneyCtx) (trip_id : String) (stop_id : String)
    (stop_num : Nat) (timepoint : Nat) (arrival_t departure_t : String)
    (route_link_ref : String) : Row :=
  { stop_id := stop_id, stop_sequence := stop_num, timepoint := timepoint,
    arrival_time := arrival_t, departure_time := departure_t,
    route_link_ref := route_link_ref, agency_id := ctx.agency_id,
    trip_id := trip_id, route_id := ctx.route_id,
    vehicle_journey_id := ctx.vehicle_journey_id,
    service_ref := ctx.service_ref, direction_id := ctx.direction_id,
    line_name := ctx.line_name, travel_mode := ctx.travel_mode,
    trip_headsign := ctx.trip_headsign, vehicle_type := ctx.vehicle_type,
    start_date := ctx.start_date, end_date := ctx.end_date,
    weekdays := ctx.weekdays, non_operative_days := ctx.non_operative_days,
    service_id := none }

/-- The terminal row assembled at transxchange.py:260-279 from
`get_last_stop_time_info` plus the per-journey fields; the
`non_operative_days` column is never set on this row. -/
def terminalRow (ctx : JourneyCtx) (trip_id : String) (info : LastStopInfo)
    (route_link_ref : String) : Row :=
  { stop_id := info.stop_id, stop_sequence := info.stop_sequence, timepoint := 0,
    arrival_time := info.arrival_time, departure_time := info.departure_time,
    route_link_ref := route_link_ref, agency_id := ctx.agency_id,
    trip_id := trip_id, route_id := ctx.route_id,
    vehicle_journey_id := ctx.vehicle_journey_id,
    service_ref := ctx.service_ref, direction_id := ctx.direction_id,
    line_name := ctx.line_name, travel_mode := ctx.travel_mode,
    trip_headsign := ctx.trip_headsign, vehicle_type := ctx.vehicle_type,
    start_date := ctx.start_date, end_date := ctx.end_date,
    weekdays := ctx.weekdays, non_operative_days := none,
    service_id := none }

/-- The timing-link loop (transxchange.py:185-256).  The first link of a
journey initialises the cursor to `hour*3600 + minute*60` (the departure
seconds are dropped by `time(int(hour), int(minute))`) with timepoint 1;
every later link advances the cursor by its own run-time before its
from-stop row is emitted, with timepoint 0. -/
def processLinks (ctx : JourneyCtx) (trip_id : String) (boarding_time : Nat) :
    List TimingLink → LoopState → Option (List Row × LoopState)
  | [], st => some ([], st)
  | link :: rest, st => do
    let duration ← parse_runtime_duration link.runTime
    let (current_dt, timepoint, departure_dt) :=
      match st.current_dt with
      | none =>
        let cdt := ctx.hour * 3600 + ctx.minute * 60
        (cdt, 1, cdt)
      | some cdt0 =>
        let cdt := cdt0 + duration
        (cdt, 0, cdt + boarding_time)
    let hours := get_midnight_formatted_times (dtHour current_dt)
      (dtHour departure_dt) ctx.hour current_dt departure_dt
    let row := linkRow ctx trip_id link.fromStopPointRef st.stop_num timepoint
      (formatStopTime hours.1 current_dt) (formatStopTime hours.2 departure_dt)
      link.routeLinkRef
    let next ← processLinks ctx trip_id boarding_time rest
      { current_dt := some current_dt, stop_num := st.stop_num + 1,
        lastLink := some (link, duration, link.routeLinkRef) }
    pure (row :: next.1, next.2)

/-- The section loop (transxchange.py:164-279).  Sections whose id is not
among the pattern's section references are skipped.  For a matching section
the link rows are collected into a fresh `section_times`, then the terminal
row is appended using the leaked `link`/`duration`/`route_link_ref`/
`current_dt` variables (`none` there models the `NameError`/`TypeError`
raised when no link was ever processed).  The terminal row does not advance
`stop_num`, and each matching section overwrites `section_times`. -/
def processSections (ctx : JourneyCtx) (jp_section_references : List String)
    (boarding_time : Nat) :
    List JPSection → LoopState → Option (List Row) →
    Option (LoopState × Option (List Row))
  | [], st, section_times => some (st, section_times)
  | sec :: rest, st, section_times =>
    if sec.id ∈ jp_section_references then do
      let trip_id := mkTripId sec.id ctx.weekdays ctx.hour ctx.minute
      let (rows, st') ← processLinks ctx trip_id boarding_time
        sec.timingLinks st
      let (link, duration, route_link_ref) ← st'.lastLink
      let current_dt ← st'.current_dt
      let info := get_last_stop_time_info link ctx.hour current_dt duration
        st'.stop_num boarding_time
      processSections ctx jp_section_references boarding_time rest st'
        (some (rows ++ [terminalRow ctx trip_id info route_link_ref]))
    else
      processSections ctx jp_section_references boarding_time rest st section_times

/-- The departure-time unpacking of transxchange.py:156-158:
`hour, minute, second = departure_time.split(':')` with integer conversion;
`none` models the `ValueError` raised when the split does not yield exactly
three integer fields.  The seconds field is converted but then dropped by
`time(int(hour), int(minute))` at transxchange.py:196. -/
def parseDeparture (s : String) : Option (Nat × Nat) :=
  match pySplit ":".data s.data with
  | [hs, ms, ss] => do
    let h ← pyInt hs
    let m ← pyInt ms
    let _ ← pyInt ss
    pure (h, m)
  | _ => none

/-- The journey loop (transxchange.py:113-282).  Weekday and exception info
fall back to the service-level values when the journey lacks them
(transxchange.py:129-137); the journey pattern metadata comes from the first
matching `service_jp_info` row (`.values[0]`, an `IndexError` when there is
none); the departure time must unpack into exactly three `:`-separated
integer fields.  After the section loop the journey appends the current
`section_times` — possibly the stale value left by an earlier journey — to
`gtfs_info` (a `NameError`, modelled by `none`, when it was never
assigned). -/
def processJourneys (service_jp_info : List JPInfoRow) (sections : List JPSection)
    (service_operative_days service_non_operative_days : Option String)
    (boarding_time : Nat) :
    List VehicleJourney → List Row → Option (List Row) →
    Option (TimingLink × Nat × String) → Option (List Row)
  | [], gtfs_info, _, _ => some gtfs_info
  | journey :: rest, gtfs_info, section_times, lastLink => do
    let weekdays :=
      match get_weekday_info journey with
      | some w => some w
      | none => service_operative_days
    let non_operative_days :=
      match get_calendar_dates_exceptions journey with
      | some n => some n
      | none => service_non_operative_days
    let service_journey_patterns := service_jp_info.filter
      (fun r => r.journey_pattern_id = journey.journeyPatternRef)
    let jp_section_references := service_journey_patterns.map
      (fun r => r.jp_section_reference)
    let meta ← service_journey_patterns.head?
    let (hour, minute) ← parseDeparture journey.departureTime
    let ctx : JourneyCtx :=
      { service_ref := journey.serviceRef,
        vehicle_journey_id := journey.vehicleJourneyCode,
        weekdays := weekdays, non_operative_days := non_operative_days,
        agency_id := meta.agency_id, route_id := meta.route_id,
        direction_id := meta.direction_id, line_name := meta.line_name,
        travel_mode := meta.travel_mode, trip_headsign := meta.trip_headsign,
        vehicle_type := meta.vehicle_type, start_date := meta.start_date,
        end_date := meta.end_date, hour := hour, minute := minute }
    let (st', section_times') ← processSections ctx jp_section_references
      boarding_time sections
      { current_dt := none, stop_num := 1, lastLink := lastLink } section_times
    let stRows ← section_times'
    processJourneys service_jp_info sections service_operative_days
      service_non_operative_days boarding_time rest (gtfs_info ++ stRows)
      section_times' st'.lastLink

/-- Embedding of `process_vehicle_journeys` (transxchange.py:96-287): run the
journey loop with an additional boarding time of 0 (transxchange.py:110) and
generate the `service_id` column on the accumulated rows. -/
def process_vehicle_journeys (vjourneys : List VehicleJourney)
    (service_jp_info : List JPInfoRow) (sections : List JPSection)
    (service_operative_days service_non_operative_days : Option String) :
    Option (List Row) := do
  let gtfs_info ← processJourneys service_jp_info sections
    service_operative_days service_non_operative_days 0 vjourneys [] none none
  pure (generate_service_id gtfs_info)

/-!
## bank_holidays.py: the fetch / fallback step

`get_bank_holiday_dates` (bank_holidays.py:14-23) reads the live holiday
JSON and, under `except HTTPError`, falls back to the bundled static file.
In Python's urllib, `HTTPError` (an HTTP response with an error status) is a
strict subclass of `URLError`; a network-level failure such as a DNS error
or a refused connection raises a `URLError` that is *not* an `HTTPError`.
The outcome of the read attempt is modelled by `FetchOutcome` and the
`try`/`except` control flow by `get_bank_holiday_dates_fetch`; the rest of
the function only runs once a holiday table was obtained. -/

/-- How the attempt to read the live holiday JSON can end. -/
inductive FetchOutcome (α : Type) where
  /-- The URL was read successfully. -/
  | ok (data : α)
  /-- The server answered with an HTTP error status (`urllib.error.HTTPError`). -/
  | httpError
  /-- The source was unreachable at the network level
  (`urllib.error.URLError` that is not an `HTTPError`). -/
  | urlError
  deriving DecidableEq, Repr

/-- The exceptions that can escape the fetch step. -/
inductive FetchException where
  /-- An uncaught `urllib.error.URLError`. -/
  | urlError
  deriving DecidableEq, Repr

/-- The `try`/`except HTTPError` of bank_holidays.py:18-23: a successful
read is used as is, an HTTP error status falls back to the bundled static
snapshot, and any other `URLError` propagates. -/
def get_bank_holiday_dates_fetch {α : Type} (outcome : FetchOutcome α)
    (static_snapshot : α) : Except FetchException α :=
  match outcome with
  | .ok data => .ok data
  | .httpError => .ok static_snapshot
  | .urlError => .error .urlError

/-!
## Concrete fixtures

Small concrete documents used to evaluate the embedded pipeline.
-/

/-- A timing link from stop `A` to stop `B` with a 40-minute run-time. -/
def linkAB : TimingLink :=
  { fromStopPointRef := "A", toStopPointRef := "B", routeLinkRef := "RL1",
    runTime := "PT40M" }

/-- A timing link from stop `B` to stop `C` with a 5-minute run-time. -/
def linkBC : TimingLink :=
  { fromStopPointRef := "B", toStopPointRef := "C", routeLinkRef := "RL2",
    runTime := "PT5M" }

/-- A one-link journey pattern section. -/
def sec1 : JPSection := { id := "S1", timingLinks := [linkAB] }

/-- A second one-link journey pattern section. -/
def sec2 : JPSection := { id := "S2", timingLinks := [linkBC] }

/-- Journey pattern metadata pointing pattern `JP1` at section `S1`. -/
def jp1 : JPInfoRow :=
  { journey_pattern_id := "JP1", jp_section_reference := "S1",
    agency_id := "AG", route_id := "R1", direction_id := 0, line_name := "L1",
    travel_mode := 3, trip_headsign := "HS", vehicle_type := none,
    start_date := "20190101", end_date := "20191231" }

/-- A second metadata row for pattern `JP1`, referencing section `S2`, so
that the pattern's section-reference list is `["S1", "S2"]`. -/
def jp2 : JPInfoRow := { jp1 with jp_section_reference := "S2" }

/-- A journey departing at 23:45 that operates on Mondays. -/
def vj1 : VehicleJourney :=
  { serviceRef := "SV1", journeyPatternRef := "JP1",
    vehicleJourneyCode := "VJ1", departureTime := "23:45:00",
    regularDaysOfWeek := some ["Monday"], bankHolidayNonOperation := none }

/-- A journey departing at 10:00 that operates on Mondays. -/
def vj2 : VehicleJourney :=
  { vj1 with vehicleJourneyCode := "VJ2", departureTime := "10:00:00" }

/-- A journey that carries no weekday information of its own. -/
def vj3 : VehicleJourney :=
  { vj2 with vehicleJourneyCode := "VJ3", regularDaysOfWeek := none }

/-- A concrete `gtfs_info` row. -/
def rowBase : Row :=
  { stop_id := "A", stop_sequence := 1, timepoint := 1,
    arrival_time := "10:00:00", departure_time := "10:00:00",
    route_link_ref := "RL1", agency_id := "AG", trip_id := "T1",
    route_id := "R1", vehicle_journey_id := "VJ1", service_ref := "SR1",
    direction_id := 0, line_name := "L", travel_mode := 3,
    trip_headsign := "H", vehicle_type := none, start_date := "20190101",
    end_date := "20191231", weekdays := some "Monday",
    non_operative_days := none, service_id := none }

/-- A second journey's row: a different vehicle journey and service
reference, but the same weekday specifier as `rowBase`. -/
def rowB : Row :=
  { rowBase with
    vehicle_journey_id := "VJ2"
    service_ref := "SR2"
    trip_id := "T2" }

/-- A second distinct row of the same trip `T1` as `rowBase`. -/
def rowBase2 : Row :=
  { rowBase with
    stop_id := "B"
    stop_sequence := 2
    timepoint := 0 }

/-- The first row `process_vehicle_journeys [vj1] [jp1] [sec1] none none`
emits: the from-stop of the single link at the 23:45 departure. -/
def vj1Row0 : Row :=
  { stop_id := "A", stop_sequence := 1, timepoint := 1,
    arrival_time := "23:45:00", departure_time := "23:45:00",
    route_link_ref := "RL1", agency_id := "AG", trip_id := "S1_Monday_2345",
    route_id := "R1", vehicle_journey_id := "VJ1", service_ref := "SV1",
    direction_id := 0, line_name := "L1", travel_mode := 3,
    trip_headsign := "HS", vehicle_type := none, start_date := "20190101",
    end_date := "20191231", weekdays := some "Monday",
    non_operative_days := none,
    service_id := some "SV1_20190101_20191231_Monday" }

/-- The terminal row of the same trip: stop `B`, 40 minutes later, past
midnight. -/
def vj1Row1 : Row :=
  { vj1Row0 with
    stop_id := "B"
    stop_sequence := 2
    timepoint := 0
    arrival_time := "24:25:00"
    departure_time := "24:25:00" }

/-!
## Theorems for the claims
-/

/-- Claim C1 (code bug, evaluation at the failing inputs): the source
multiplies the `S` component of a run-time token by 60, so
`parse_runtime_duration` returns 1800 for `"PT30S"` and 3900 for
`"PT1H2M3S"` instead of the 30 and 3723 seconds the claim states; only the
minute-and-hour example `"PT45M" = 2700` comes out as claimed. -/
theorem C1_parse_runtime_duration_eval :
    parse_runtime_duration "PT30S" = some 1800 ∧
    parse_runtime_duration "PT1H2M3S" = some 3900 ∧
    parse_runtime_duration "PT45M" = some 2700 := by
  refine ⟨by decide, by decide, by decide⟩

/-- Claim C2 counterexample: two vehicle journeys that share a weekday
specifier but differ in `service_ref` are claimed to receive distinct
service_ids, each built from its own fields; in fact `generate_service_id`
groups only by the `weekdays` column, so both journeys receive the one
service_id built from the group's first row, and the second journey's
service_id is not the string formed from its own `service_ref`. -/
theorem C2_counterexample :
    (generate_service_id [rowBase, rowB]).map (fun r => r.service_id) =
      [some "SR1_20190101_20191231_Monday",
       some "SR1_20190101_20191231_Monday"] ∧
    rowBase.service_ref ≠ rowB.service_ref ∧
    rowB.service_ref ++ "_" ++ rowB.start_date ++ "_" ++ rowB.end_date ++
        "_" ++ "Monday" ≠ "SR1_20190101_20191231_Monday" := by
  refine ⟨by decide, by decide, by decide⟩

/-- Claim C2 as amended: `generate_service_id` groups journeys by the
`weekdays` column alone.  Journeys sharing a weekday specifier all receive
the service_id `"{service_ref}_{start_date}_{end_date}_{weekday}"` built
from the first-occurring journey of that weekday group (even when their own
`service_ref` or dates differ), while journeys with different weekday
specifiers fall into different groups and receive service_ids built from
their own group's representative. -/
theorem C2_generate_service_id_amended :
    (∀ (rA rB : Row) (w : String),
      rA.weekdays = some w → rB.weekdays = some w →
      rA.vehicle_journey_id ≠ rB.vehicle_journey_id →
      generate_service_id [rA, rB] =
        [{ rA with service_id := some (rA.service_ref ++ "_" ++ rA.start_date ++
            "_" ++ rA.end_date ++ "_" ++ w) },
         { rB with service_id := some (rA.service_ref ++ "_" ++ rA.start_date ++
            "_" ++ rA.end_date ++ "_" ++ w) }]) ∧
    (∀ (rA rB : Row) (w1 w2 : String),
      rA.weekdays = some w1 → rB.weekdays = some w2 → w1 ≠ w2 →
      rA.vehicle_journey_id ≠ rB.vehicle_journey_id →
      generate_service_id [rA, rB] =
        [{ rA with service_id := some (rA.service_ref ++ "_" ++ rA.start_date ++
            "_" ++ rA.end_date ++ "_" ++ w1) },
         { rB with service_id := some (rB.service_ref ++ "_" ++ rB.start_date ++
            "_" ++ rB.end_date ++ "_" ++ w2) }]) := by
  constructor
  · intro rA rB w hA hB hne
    simp [generate_service_id, assignGroup, dedupByKey, dedupByKeyGo, hA, hB,
      hne, Ne.symm hne]
  · intro rA rB w1 w2 hA hB hw hne
    simp [generate_service_id, assignGroup, dedupByKey, dedupByKeyGo, hA, hB,
      hw, hne, Ne.symm hne, Ne.symm hw]

/-- Witness for C2: the shared-weekday branch applied at the concrete rows
`rowBase` and `rowB`. -/
theorem C2_generate_service_id_amended_witness :
    generate_service_id [rowBase, rowB] =
      [{ rowBase with service_id := some ("SR1" ++ "_" ++ "20190101" ++ "_" ++
          "20191231" ++ "_" ++ "Monday") },
       { rowB with service_id := some ("SR1" ++ "_" ++ "20190101" ++ "_" ++
          "20191231" ++ "_" ++ "Monday") }] :=
  C2_generate_service_id_amended.1 rowBase rowB "Monday" (by decide) (by decide)
    (by decide)

/-- Claim C3: the midnight-rollover rule.  Whenever the naive hour-of-day of
the cursor falls below the trip's starting hour, the displayed hour is
`23 + floor((cursor - 86399) / 3600) + 1` (86399 is the last second of the
starting day) for both the arrival and the departure component; and the
concrete trip departing 23:45 with a 40-minute cumulative run-time renders
its terminal arrival and departure as `24:25:00`, not `00:25:00`. -/
theorem C3_midnight_rollover :
    (∀ t td hour : Nat, dtHour t < hour →
      get_midnight_formatted_times (dtHour t) (dtHour td) hour t td =
        (23 + ((t - 86399) / 3600 + 1), 23 + ((td - 86399) / 3600 + 1))) ∧
    (process_vehicle_journeys [vj1] [jp1] [sec1] none none).map
        (fun rows => rows.map (fun r => (r.arrival_time, r.departure_time))) =
      some [("23:45:00", "23:45:00"), ("24:25:00", "24:25:00")] := by
  constructor
  · intro t td hour h
    simp [get_midnight_formatted_times, h]
  · decide

/-- Witness for C3: the rollover equation applied at the concrete cursor
87900 (= 24:25:00 counted from the starting midnight) of a trip that starts
in hour 23, where it yields the displayed hour 24. -/
theorem C3_midnight_rollover_witness :
    get_midnight_formatted_times (dtHour 87900) (dtHour 87900) 23 87900 87900 =
      (24, 24) := by
  have h := C3_midnight_rollover.1 87900 87900 23 (by decide)
  simpa using h

/-- Claim C4 (code bug, evaluation at the failing input): a journey whose
pattern references two chained sections (`S1` then `S2`, one timing link
each) should emit rows numbered 1, 2, 3 continuing across the boundary, but
the code emits final rows whose stop_sequence values are `[2, 3]`: the
terminal row of a section never advances the stop counter (so the next
section's first row repeats its number) and each section overwrites
`section_times`, so the rows of every section but the last are discarded and
the surviving trip does not start at 1. -/
theorem C4_two_section_stop_sequence :
    (process_vehicle_journeys [vj2] [jp1, jp2] [sec1, sec2] none none).map
        (fun rows => rows.map (fun r => r.stop_sequence)) =
      some [2, 3] := by
  decide

/-- Claim C5: the four specifier shapes of `parse_day_range`.  Any string
whose stripped, lowered form contains `"weekend"` yields Saturday and Sunday
only; `"MondayToWednesday"` yields Monday through Wednesday;
`"Monday|Friday"` yields Monday and Friday; and each single day name yields
exactly that day. -/
theorem C5_parse_day_range_shapes :
    (∀ s : String,
      pyInStr "weekend".data (pyLower (pyStrip s.data)) = true →
      parse_day_range s = some ⟨0, 0, 0, 0, 0, 1, 1⟩) ∧
    parse_day_range "MondayToWednesday" = some ⟨1, 1, 1, 0, 0, 0, 0⟩ ∧
    parse_day_range "Monday|Friday" = some ⟨1, 0, 0, 0, 1, 0, 0⟩ ∧
    (∀ i : Fin 7, parse_day_range (dayName i) = some (mkDayRow [i.val])) := by
  refine ⟨?_, by decide, by decide, by decide⟩
  intro s h
  simp [parse_day_range, h]
  decide

/-- Witness for C5: the weekend branch applied at the concrete specifier
`" Weekend "`. -/
theorem C5_parse_day_range_shapes_witness :
    parse_day_range " Weekend " = some ⟨0, 0, 0, 0, 0, 1, 1⟩ :=
  C5_parse_day_range_shapes.1 " Weekend " (by decide)

/-- Claim C6: for every reversed day range (end index strictly below start
index) `parse_day_range` returns the all-zero pattern without error. -/
theorem C6_reversed_day_range_empty :
    ∀ i j : Fin 7, j.val < i.val →
      parse_day_range (dayName i ++ "To" ++ dayName j) =
        some ⟨0, 0, 0, 0, 0, 0, 0⟩ := by
  decide

/-- Witness for C6: the reversed range `"FridayToMonday"`. -/
theorem C6_reversed_day_range_empty_witness :
    parse_day_range (dayName ⟨4, by decide⟩ ++ "To" ++ dayName ⟨0, by decide⟩) =
      some ⟨0, 0, 0, 0, 0, 0, 0⟩ :=
  C6_reversed_day_range_empty ⟨4, by decide⟩ ⟨0, by decide⟩ (by decide)

/-- Every row emitted by the timing-link loop carries the journey's resolved
weekday specifier. -/
theorem processLinks_weekdays (ctx : JourneyCtx) (tid : String) (bt : Nat) :
    ∀ (links : List TimingLink) (st : LoopState) (rows : List Row)
      (st' : LoopState),
      processLinks ctx tid bt links st = some (rows, st') →
      ∀ r ∈ rows, r.weekdays = ctx.weekdays := by
  intro links
  induction links with
  | nil =>
    intro st rows st' h r hr
    simp [processLinks] at h
    rw [h.1] at hr
    simp at hr
  | cons link rest ih =>
    intro st rows st' h r hr
    cases hd : parse_runtime_duration link.runTime with
    | none => simp [processLinks, hd] at h
    | some d =>
      cases hcd : st.current_dt with
      | none =>
        simp only [processLinks, hd, hcd, Option.bind_eq_bind,
          Option.some_bind] at h
        cases hrec : processLinks ctx tid bt rest
            { current_dt := some (ctx.hour * 3600 + ctx.minute * 60),
              stop_num := st.stop_num + 1,
              lastLink := some (link, d, link.routeLinkRef) } with
        | none => rw [hrec] at h; simp at h
        | some next =>
          rw [hrec] at h
          simp at h
          rw [← h.1] at hr
          rcases List.mem_cons.mp hr with hr1 | hr2
          · rw [hr1]; rfl
          · exact ih _ next.1 next.2 (by simpa using hrec) r hr2
      | some cdt0 =>
        simp only [processLinks, hd, hcd, Option.bind_eq_bind,
          Option.some_bind] at h
        cases hrec : processLinks ctx tid bt rest
            { current_dt := some (cdt0 + d), stop_num := st.stop_num + 1,
              lastLink := some (link, d, link.routeLinkRef) } with
        | none => rw [hrec] at h; simp at h
        | some next =>
          rw [hrec] at h
          simp at h
          rw [← h.1] at hr
          rcases List.mem_cons.mp hr with hr1 | hr2
          · rw [hr1]; rfl
          · exact ih _ next.1 next.2 (by simpa using hrec) r hr2

/-- Every row held in `section_times` after the section loop carries the
journey's resolved weekday specifier, provided the incoming `section_times`
already did. -/
theorem processSections_weekdays (ctx : JourneyCtx) (refs : List String)
    (bt : Nat) :
    ∀ (secs : List JPSection) (st : LoopState) (stimes : Option (List Row))
      (st' : LoopState) (stimes' : Option (List Row)),
      processSections ctx refs bt secs st stimes = some (st', stimes') →
      (∀ rs, stimes = some rs → ∀ r ∈ rs, r.weekdays = ctx.weekdays) →
      ∀ rs', stimes' = some rs' → ∀ r ∈ rs', r.weekdays = ctx.weekdays := by
  intro secs
  induction secs with
  | nil =>
    intro st stimes st' stimes' h hinv rs' h' r hr
    simp [processSections] at h
    exact hinv rs' (by rw [h.2, h']) r hr
  | cons sec rest ih =>
    intro st stimes st' stimes' h hinv rs' h' r hr
    by_cases hm : sec.id ∈ refs
    · simp only [processSections, if_pos hm, Option.bind_eq_bind] at h
      cases hl : processLinks ctx (mkTripId sec.id ctx.weekdays ctx.hour ctx.minute)
          bt sec.timingLinks st with
      | none => rw [hl] at h; simp at h
      | some p =>
        rw [hl] at h
        simp only [Option.some_bind] at h
        obtain ⟨rows, st1⟩ := p
        cases hll : st1.lastLink with
        | none => rw [hll] at h; simp at h
        | some ld =>
          rw [hll] at h
          obtain ⟨lk, dur, rlr⟩ := ld
          simp only [Option.some_bind] at h
          cases hcd : st1.current_dt with
          | none => rw [hcd] at h; simp at h
          | some cdt =>
            rw [hcd] at h
            simp only [Option.some_bind] at h
            refine ih st1 _ st' stimes' h ?_ rs' h' r hr
            intro rs hrs rr hrr
            rw [Option.some_inj] at hrs
            rw [← hrs] at hrr
            rcases List.mem_append.mp hrr with h1 | h2
            · exact processLinks_weekdays ctx _ bt sec.timingLinks st rows st1
                (by simpa using hl) rr h1
            · rw [List.mem_singleton.mp h2]; rfl
    · simp only [processSections, if_neg hm] at h
      exact ih st stimes st' stimes' h hinv rs' h' r hr

/-- Mapping a row transformation that keeps the `weekdays` field does not
change the list of `weekdays` values. -/
theorem map_update_weekdays (f : Row → Row)
    (hf : ∀ r, (f r).weekdays = r.weekdays) (l : List Row) :
    (l.map f).map (fun r => r.weekdays) = l.map (fun r => r.weekdays) := by
  induction l with
  | nil => rfl
  | cons a t iht => simp [hf a, iht]

/-- `assignGroup` only rewrites the `service_id` column. -/
theorem assignGroup_map_weekdays (cal acc : List Row) (w : String) :
    (assignGroup cal acc w).map (fun r => r.weekdays) =
      acc.map (fun r => r.weekdays) := by
  unfold assignGroup
  cases hc : cal.filter (fun r => r.weekdays = some w) with
  | nil => rfl
  | cons c0 cs =>
    refine map_update_weekdays _ ?_ acc
    intro r
    split
    · rfl
    · rfl

/-- Folding `assignGroup` over any key list only rewrites `service_id`. -/
theorem foldl_assignGroup_map_weekdays (cal : List Row) :
    ∀ (keys : List String) (acc : List Row),
      ((keys.foldl (assignGroup cal) acc).map (fun r => r.weekdays)) =
        acc.map (fun r => r.weekdays) := by
  intro keys
  induction keys with
  | nil => intro acc; rfl
  | cons k ks ih =>
    intro acc
    rw [List.foldl_cons, ih, assignGroup_map_weekdays]

/-- `generate_service_id` only rewrites the `service_id` column: the
`weekdays` values are unchanged row by row. -/
theorem generate_service_id_map_weekdays (rows : List Row) :
    (generate_service_id rows).map (fun r => r.weekdays) =
      rows.map (fun r => r.weekdays) := by
  unfold generate_service_id
  rw [foldl_assignGroup_map_weekdays]
  exact map_update_weekdays (fun r => { r with service_id := none })
    (fun r => rfl) rows

/-- Claim C7 counterexample: a journey providing no weekday specifier,
processed with no service-level default either, is claimed to fail with
`UnresolvableCalendarError`; in fact `process_vehicle_journeys` succeeds
(returns rows rather than an exception) and every emitted row simply carries
a null weekday specifier. -/
theorem C7_counterexample :
    (process_vehicle_journeys [vj3] [jp1] [sec1] none none).map
        (fun rows => rows.map (fun r => r.weekdays)) =
      some [none, none] ∧
    get_weekday_info vj3 = none := by
  refine ⟨by decide, rfl⟩

/-- Claim C7 as amended: the precedence between the journey's own weekday
specifier and the service-level default holds — every row emitted for a
journey carries the journey's explicit specifier when present, otherwise the
service-level value — but when both are absent the resolved specifier is
simply null (`None`): processing continues, rows are emitted with a null
weekday, and no error is raised. -/
theorem C7_weekday_precedence :
    ∀ (vj : VehicleJourney) (service_jp_info : List JPInfoRow)
      (sections : List JPSection) (sdays sndays : Option String)
      (rows : List Row),
      process_vehicle_journeys [vj] service_jp_info sections sdays sndays =
        some rows →
      ∀ r ∈ rows,
        r.weekdays =
          match get_weekday_info vj with
          | some w => some w
          | none => sdays := by
  intro vj jpinfo sections sdays sndays rows h r hr
  unfold process_vehicle_journeys at h
  cases hjl : processJourneys jpinfo sections sdays sndays 0 [vj] [] none none with
  | none => rw [hjl] at h; simp at h
  | some gtfs =>
    rw [hjl] at h
    simp only [Option.bind_eq_bind, Option.some_bind, Option.pure_def,
      Option.some_inj] at h
    simp only [processJourneys, Option.bind_eq_bind, Option.bind_eq_some] at hjl
    obtain ⟨meta, hmeta, ⟨hour, minute⟩, hpd, ⟨st1, stimes1⟩, hps, stRows, hst, hlast⟩ := hjl
    simp only [processJourneys, List.nil_append, Option.some_inj] at hlast
    have hW : ∀ rr ∈ stRows, rr.weekdays =
        (match get_weekday_info vj with
          | some w => some w
          | none => sdays) := by
      intro rr hrr
      exact processSections_weekdays _ _ 0 sections _ none st1 stimes1 hps
        (fun rs hrs => nomatch hrs) stRows hst rr hrr
    rw [← h] at hr
    have hmem : r.weekdays ∈ (generate_service_id gtfs).map (fun rr => rr.weekdays) :=
      List.mem_map_of_mem _ hr
    rw [generate_service_id_map_weekdays, ← hlast] at hmem
    obtain ⟨r0, hr0, heq⟩ := List.mem_map.mp hmem
    rw [← heq]
    exact hW r0 hr0

/-- Witness for C7: the precedence theorem applied to the concrete
single-journey document whose journey operates on Mondays. -/
theorem C7_weekday_precedence_witness :
    vj1Row0.weekdays = some "Monday" :=
  C7_weekday_precedence vj1 [jp1] [sec1] none none [vj1Row0, vj1Row1]
    (by decide) vj1Row0 (by decide)

/-- Membership in the first-occurrence deduplication with key `id`: an
element survives exactly when it occurs in the list and was not already
seen. -/
theorem mem_dedupByKeyGo_id {α : Type} [DecidableEq α] :
    ∀ (l seen : List α) (a : α),
      a ∈ dedupByKeyGo id seen l ↔ (a ∈ l ∧ a ∉ seen) := by
  intro l
  induction l with
  | nil => intro seen a; simp [dedupByKeyGo]
  | cons x t ih =>
    intro seen a
    by_cases hx : x ∈ seen
    · simp only [dedupByKeyGo, id_eq, if_pos hx, ih, List.mem_cons]
      constructor
      · rintro ⟨h1, h2⟩
        exact ⟨Or.inr h1, h2⟩
      · rintro ⟨h1 | h1, h2⟩
        · exact absurd (h1 ▸ hx) h2
        · exact ⟨h1, h2⟩
    · simp only [dedupByKeyGo, id_eq, if_neg hx, List.mem_cons, ih]
      constructor
      · rintro (h1 | ⟨h1, h2⟩)
        · exact ⟨Or.inl h1, h1 ▸ hx⟩
        · simp only [List.mem_cons, not_or] at h2
          exact ⟨Or.inr h1, h2.2⟩
      · rintro ⟨h1 | h1, h2⟩
        · exact Or.inl h1
        · by_cases hax : a = x
          · exact Or.inl hax
          · exact Or.inr ⟨h1, by simp [List.mem_cons, hax, h2]⟩

/-- The first-occurrence deduplication with key `id` has no duplicates. -/
theorem nodup_dedupByKeyGo_id {α : Type} [DecidableEq α] :
    ∀ (l seen : List α), (dedupByKeyGo id seen l).Nodup := by
  intro l
  induction l with
  | nil => intro seen; simp [dedupByKeyGo]
  | cons x t ih =>
    intro seen
    by_cases hx : x ∈ seen
    · simpa [dedupByKeyGo, hx] using ih seen
    · simp only [dedupByKeyGo, id_eq, if_neg hx, List.nodup_cons]
      refine ⟨?_, ih (x :: seen)⟩
      intro hmem
      exact ((mem_dedupByKeyGo_id t (x :: seen) x).mp hmem).2
        (List.mem_cons_self x seen)

/-- Deduplicating with key `id` does not change membership. -/
theorem mem_dedupByKey_id {α : Type} [DecidableEq α] (l : List α) (a : α) :
    a ∈ dedupByKey id l ↔ a ∈ l := by
  simp [dedupByKey, mem_dedupByKeyGo_id]

/-- A `flatMap` whose pieces are all empty is empty. -/
theorem flatMap_nil_of_all {α β : Type} (g : α → List β) :
    ∀ (keys : List α), (∀ k ∈ keys, g k = []) → keys.flatMap g = [] := by
  intro keys
  induction keys with
  | nil => intro; rfl
  | cons k ks ih =>
    intro hg
    simp only [List.flatMap_cons, hg k (List.mem_cons_self k ks),
      List.nil_append]
    exact ih (fun k' hk' => hg k' (List.mem_cons_of_mem k hk'))

/-- A `flatMap` over a duplicate-free key list in which only the key `t` can
contribute reduces to the contribution of `t`. -/
theorem flatMap_eq_single {α β : Type} [DecidableEq α] (g : α → List β)
    (t : α) :
    ∀ (keys : List α), keys.Nodup → (∀ k, k ≠ t → g k = []) →
      keys.flatMap g = if t ∈ keys then g t else [] := by
  intro keys
  induction keys with
  | nil => intro _ _; simp
  | cons k ks ih =>
    intro hnd hg
    obtain ⟨hk, hnd2⟩ := List.nodup_cons.mp hnd
    simp only [List.flatMap_cons]
    by_cases hkt : k = t
    · subst hkt
      have hrest : ks.flatMap g = [] := by
        refine flatMap_nil_of_all g ks (fun k' hk' => hg k' ?_)
        intro he
        exact hk (he ▸ hk')
      simp [hrest]
    · rw [hg k hkt, List.nil_append, ih hnd2 hg]
      by_cases hte : t ∈ ks
      · rw [if_pos hte, if_pos (List.mem_cons_of_mem k hte)]
      · rw [if_neg hte, if_neg ?_]
        intro hmem
        rcases List.mem_cons.mp hmem with he | he
        · exact hkt he.symm
        · exact hte he

/-- `filter` distributes over `flatMap`. -/
theorem filter_flatMap_list {α β : Type} (p : β → Bool) (g : α → List β) :
    ∀ (l : List α),
      (l.flatMap g).filter p = l.flatMap (fun a => (g a).filter p) := by
  intro l
  induction l with
  | nil => rfl
  | cons a t ih => simp [List.flatMap_cons, List.filter_append, ih]

/-- Claim C8 counterexample: a trip whose expansion yields two stop rows
that are identical over the six exported columns is claimed to be retained
(it has two or more stop rows); in fact `get_stop_times` drops duplicate
rows first, leaving the trip with one row, and then excludes it entirely. -/
theorem C8_counterexample :
    ([rowBase, rowBase].map toStopTimesRow).length = 2 ∧
    get_stop_times [rowBase, rowBase] = [] := by
  refine ⟨by decide, by decide⟩

/-- Claim C8 as amended: `get_stop_times` first drops duplicate rows over
the six exported columns (keeping first occurrences); a trip left with at
most one distinct row contributes nothing to the output, and a trip left
with two or more distinct rows contributes exactly its distinct rows. -/
theorem C8_get_stop_times_amended :
    ∀ (gtfs_info : List Row) (t : String),
      (((dedupByKey id (gtfs_info.map toStopTimesRow)).filter
            (fun r => r.trip_id = t)).length ≤ 1 →
        (get_stop_times gtfs_info).filter (fun r => r.trip_id = t) = []) ∧
      (1 < ((dedupByKey id (gtfs_info.map toStopTimesRow)).filter
            (fun r => r.trip_id = t)).length →
        (get_stop_times gtfs_info).filter (fun r => r.trip_id = t) =
          (dedupByKey id (gtfs_info.map toStopTimesRow)).filter
            (fun r => r.trip_id = t)) := by
  intro gtfs_info t
  set st := dedupByKey id (gtfs_info.map toStopTimesRow) with hst
  set keys := List.insertionSort (fun a b : String => a < b)
    (dedupByKey id (st.map (fun r => r.trip_id))) with hkeys
  have hout : get_stop_times gtfs_info =
      keys.flatMap (fun idx =>
        if 1 < (st.filter (fun r => r.trip_id = idx)).length then
          st.filter (fun r => r.trip_id = idx)
        else []) := rfl
  have hfil : (get_stop_times gtfs_info).filter (fun r => r.trip_id = t) =
      keys.flatMap (fun idx =>
        (if 1 < (st.filter (fun r => r.trip_id = idx)).length then
          st.filter (fun r => r.trip_id = idx)
        else []).filter (fun r => r.trip_id = t)) := by
    rw [hout, filter_flatMap_list]
  have hg : ∀ k, k ≠ t →
      (if 1 < (st.filter (fun r => r.trip_id = k)).length then
        st.filter (fun r => r.trip_id = k)
      else []).filter (fun r => r.trip_id = t) = [] := by
    intro k hk
    rw [apply_ite (fun l : List StopTimesRow =>
      l.filter (fun r => decide (r.trip_id = t)))]
    have hempty : (st.filter (fun r => r.trip_id = k)).filter
        (fun r => r.trip_id = t) = [] := by
      refine List.filter_eq_nil_iff.mpr ?_
      intro a ha
      have := (List.mem_filter.mp ha).2
      simp only [decide_eq_true_eq] at this
      simp only [decide_eq_true_eq]
      intro hat
      exact hk (by rw [← this, ← hat])
    rw [hempty]
    simp
  have hgt : (if 1 < (st.filter (fun r => r.trip_id = t)).length then
        st.filter (fun r => r.trip_id = t)
      else []).filter (fun r => r.trip_id = t) =
      (if 1 < (st.filter (fun r => r.trip_id = t)).length then
        st.filter (fun r => r.trip_id = t)
      else []) := by
    rw [apply_ite (fun l : List StopTimesRow =>
      l.filter (fun r => decide (r.trip_id = t)))]
    have hself : (st.filter (fun r => r.trip_id = t)).filter
        (fun r => r.trip_id = t) = st.filter (fun r => r.trip_id = t) := by
      refine List.filter_eq_self.mpr ?_
      intro a ha
      exact (List.mem_filter.mp ha).2
    rw [hself]
    simp
  have hnodup : keys.Nodup := by
    rw [hkeys]
    exact (List.perm_insertionSort _ _).nodup_iff.mpr
      (nodup_dedupByKeyGo_id _ _)
  have hsingle := flatMap_eq_single
    (fun idx =>
      (if 1 < (st.filter (fun r => r.trip_id = idx)).length then
        st.filter (fun r => r.trip_id = idx)
      else []).filter (fun r => r.trip_id = t)) t keys hnodup hg
  constructor
  · intro hle
    rw [hfil]
    simp only [hsingle]
    by_cases hmem : t ∈ keys
    · rw [if_pos hmem, hgt, if_neg (by omega)]
    · rw [if_neg hmem]
  · intro hlt
    have hne : st.filter (fun r => r.trip_id = t) ≠ [] := by
      intro he
      rw [he] at hlt
      simp at hlt
    obtain ⟨r0, hr0⟩ := List.exists_mem_of_ne_nil _ hne
    have hr0m := List.mem_filter.mp hr0
    have hmem : t ∈ keys := by
      rw [hkeys, (List.perm_insertionSort _ _).mem_iff, mem_dedupByKey_id]
      refine List.mem_map.mpr ⟨r0, hr0m.1, ?_⟩
      simpa using hr0m.2
    rw [hfil]
    simp only [hsingle]
    rw [if_pos hmem, hgt, if_pos hlt]

/-- Witness for C8: the retained branch of the amended theorem applied to a
two-distinct-row trip. -/
theorem C8_get_stop_times_amended_witness :
    (get_stop_times [rowBase, rowBase2]).filter (fun r => r.trip_id = "T1") =
      (dedupByKey id ([rowBase, rowBase2].map toStopTimesRow)).filter
        (fun r => r.trip_id = "T1") :=
  (C8_get_stop_times_amended [rowBase, rowBase2] "T1").2 (by decide)

/-- Claim C9 (code bug, evaluation at the failing outcome): the fetch step
falls back to the bundled snapshot only for an `HTTPError` (an HTTP error
response); a network-level `URLError` — the source being unreachable —
propagates out instead of triggering the fallback, contradicting the code's
own comment and the claim. -/
theorem C9_urlerror_propagates :
    ∀ static_snapshot : Nat,
      get_bank_holiday_dates_fetch FetchOutcome.urlError static_snapshot =
        Except.error FetchException.urlError ∧
      get_bank_holiday_dates_fetch FetchOutcome.httpError static_snapshot =
        Except.ok static_snapshot := by
  intro s
  exact ⟨rfl, rfl⟩

/-- Claim C10: `get_direction` maps exactly `"inbound"` to 0 and
`"outbound"` to 1, and raises a `ValueError` on every other string. -/
theorem C10_get_direction :
    get_direction "inbound" = Except.ok 0 ∧
    get_direction "outbound" = Except.ok 1 ∧
    (∀ s : String, s ≠ "inbound" → s ≠ "outbound" →
      get_direction s = Except.error ("Cannot determine direction from " ++ s)) := by
  refine ⟨rfl, rfl, ?_⟩
  intro s h1 h2
  simp [get_direction, h1, h2]

/-- Witness for C10: the error branch applied at the concrete string
`"north"`. -/
theorem C10_get_direction_witness :
    get_direction "north" = Except.error ("Cannot determine direction from " ++ "north") :=
  C10_get_direction.2.2 "north" (by decide) (by decide)

end TransX
